import Mathlib

/-!
Shallow embedding of `base/vulkanMeshLoader.hpp` (class `VulkanMeshLoader` and the
helpers in namespace `vkMeshLoader`).

Modelling conventions:
- C++ `float` scalars are modelled as `ℚ`; every operation the claims exercise
  (negation, componentwise min/max, subtraction, multiplication by a scale) is
  exact on the rational values involved, so no rounding behaviour is lost.
- `std::vector` is modelled as `List`; the `push_back` accumulation loops become
  `foldl` with list append, mirroring the single flat accumulator of the source.
- The GPU side (buffer handles, memory, staging copies) is external to this
  subsystem; `createBuffers` is modelled as the state transformation it performs
  on the loader plus the packed data and sizes it hands to the GPU collaborator.
  The `useStaging` flag is kept in the signature; it only selects which external
  GPU calls receive the identical packed data.
- The assimp scene (`aiScene` / `aiMesh` / `aiFace`) is modelled by `SrcScene` /
  `SrcMesh`, with the parallel per-vertex arrays (`mVertices`, `mNormals`,
  `mTextureCoords[0]`, `mTangents`, `mBitangents`) fused into one list of
  `SrcVertex` records, and the `HasTextureCoords(0)` / `HasTangentsAndBitangents`
  predicates as the flags `hasTexCoords` / `hasTangents`.
-/

/-- glm::vec3 with float components, modelled over ℚ. -/
structure Vec3 where
  x : ℚ
  y : ℚ
  z : ℚ
deriving DecidableEq

/-- glm::vec2 with float components, modelled over ℚ. -/
structure Vec2 where
  x : ℚ
  y : ℚ
deriving DecidableEq

/-- Componentwise subtraction, `glm::vec3 - glm::vec3` (used for `dim.size = dim.max - dim.min`). -/
def Vec3.sub (a b : Vec3) : Vec3 := ⟨a.x - b.x, a.y - b.y, a.z - b.z⟩

/-- `v *= scale` on a glm::vec3: componentwise multiplication by a scalar. -/
def Vec3.scaled (v : Vec3) (s : ℚ) : Vec3 := ⟨v.x * s, v.y * s, v.z * s⟩

/-- FLT_MAX, the initial value of `dim.min` (and negated for `dim.max`):
`(2^24 - 1) * 2^104`. -/
def fltMax : ℚ := (2 ^ 128 : ℚ) - (2 ^ 104 : ℚ)

/-! The `vkMeshLoader::VertexLayout` enum. Its enumerators are the numeric
values `0x0 .. 0x7`; layout entries are modelled as the raw `Nat` values the
C++ comparisons operate on. -/

def VERTEX_LAYOUT_POSITION : Nat := 0
def VERTEX_LAYOUT_NORMAL : Nat := 1
def VERTEX_LAYOUT_COLOR : Nat := 2
def VERTEX_LAYOUT_UV : Nat := 3
def VERTEX_LAYOUT_TANGENT : Nat := 4
def VERTEX_LAYOUT_BITANGENT : Nat := 5
def VERTEX_LAYOUT_DUMMY_FLOAT : Nat := 6
def VERTEX_LAYOUT_DUMMY_VEC4 : Nat := 7

/-- The declared enumerators of `vkMeshLoader::VertexLayout`. -/
def supportedKinds : List Nat :=
  [VERTEX_LAYOUT_POSITION, VERTEX_LAYOUT_NORMAL, VERTEX_LAYOUT_COLOR,
   VERTEX_LAYOUT_UV, VERTEX_LAYOUT_TANGENT, VERTEX_LAYOUT_BITANGENT,
   VERTEX_LAYOUT_DUMMY_FLOAT, VERTEX_LAYOUT_DUMMY_VEC4]

/-- `vkMeshLoader::vertexSize`: a switch with one case for UV
(`vSize += 2 * sizeof(float)`) and a default (`vSize += 3 * sizeof(float)`),
folded over the layout; `sizeof(float) = 4`. -/
def vertexSize (layout : List Nat) : Nat :=
  layout.foldl
    (fun vSize layoutDetail =>
      if layoutDetail = VERTEX_LAYOUT_UV then vSize + 2 * 4 else vSize + 3 * 4)
    0

/-- `VulkanMeshLoader::Vertex`. -/
structure Vertex where
  m_pos : Vec3
  m_tex : Vec2
  m_normal : Vec3
  m_color : Vec3
  m_tangent : Vec3
  m_binormal : Vec3
deriving DecidableEq

def defaultVertex : Vertex :=
  { m_pos := ⟨0, 0, 0⟩, m_tex := ⟨0, 0⟩, m_normal := ⟨0, 0, 0⟩,
    m_color := ⟨0, 0, 0⟩, m_tangent := ⟨0, 0, 0⟩, m_binormal := ⟨0, 0, 0⟩ }

/-- `VulkanMeshLoader::MeshEntry`. The `NumIndices` field of the source is
declared but never assigned anywhere in the file, so it is omitted. -/
structure MeshEntry where
  MaterialIndex : Nat
  vertexBase : Nat
  Vertices : List Vertex
  Indices : List Nat
deriving DecidableEq

/-- A value-initialised `MeshEntry`, as produced by `m_Entries.resize`. -/
def defaultMeshEntry : MeshEntry :=
  { MaterialIndex := 0, vertexBase := 0, Vertices := [], Indices := [] }

/-- `VulkanMeshLoader::Dimension`. -/
structure Dimension where
  min : Vec3
  max : Vec3
  size : Vec3
deriving DecidableEq

/-- Initial bounding box: `min = glm::vec3(FLT_MAX)`, `max = glm::vec3(-FLT_MAX)`. -/
def initialDim : Dimension :=
  { min := ⟨fltMax, fltMax, fltMax⟩, max := ⟨-fltMax, -fltMax, -fltMax⟩, size := ⟨0, 0, 0⟩ }

/-- The mutable members of `VulkanMeshLoader` the claims concern. -/
structure LoaderState where
  m_Entries : List MeshEntry
  dim : Dimension
  numVertices : Nat
deriving DecidableEq

/-- A freshly constructed `VulkanMeshLoader`. -/
def initialState : LoaderState :=
  { m_Entries := [], dim := initialDim, numVertices := 0 }

/-- One source vertex: the `i`-th slots of the parallel assimp arrays. -/
structure SrcVertex where
  pos : Vec3
  normal : Vec3
  tex : Vec2
  tangent : Vec3
  bitangent : Vec3
deriving DecidableEq

/-- An `aiMesh`: material index, presence flags for the optional arrays,
vertex records, and faces (each face is its index list, of length `mNumIndices`). -/
structure SrcMesh where
  materialIndex : Nat
  hasTexCoords : Bool
  hasTangents : Bool
  verts : List SrcVertex
  faces : List (List Nat)
deriving DecidableEq

/-- An `aiScene`: the meshes plus each material's diffuse color (the
`AI_MATKEY_COLOR_DIFFUSE` lookup in `InitMesh`, defaulting to `(0,0,0)`). -/
structure SrcScene where
  meshes : List SrcMesh
  materials : List Vec3
deriving DecidableEq

/-- `VulkanMeshLoader::getMemoryType`, the `for (i = 0; i < 32; i++)` loop:
at step `i` the low bit of the shifted `typeBits` is tested
(`typeBits >>= 1` per iteration, so the bit tested at step `i` is
`(typeBits >>> i) &&& 1`), then the property-flag containment test
`(memoryTypes[i].propertyFlags & properties) == properties`; the first
qualifying `i` is returned.  The loop counter is structural fuel so the
function reduces in the kernel. -/
def getMemoryTypeGo (memProps : List Nat) (typeBits properties : Nat) : Nat → Nat → Nat
  | 0, _ => 0
  | fuel + 1, i =>
    if (typeBits >>> i) &&& 1 = 1 then
      if ((memProps.getD i 0) &&& properties) = properties then i
      else getMemoryTypeGo memProps typeBits properties fuel (i + 1)
    else getMemoryTypeGo memProps typeBits properties fuel (i + 1)

/-- `getMemoryType`: scan indices `0..31`; after the loop the source has
`// todo : throw error` and falls through to `return 0`. -/
def getMemoryType (memProps : List Nat) (typeBits properties : Nat) : Nat :=
  getMemoryTypeGo memProps typeBits properties 32 0

/-- The `Vertex v(...)` construction inside `InitMesh`'s vertex loop:
position is stored with the Y axis negated; the texture coordinate falls back
to `Zero3D` (hence `(0,0)`) without texture coordinates; tangent and bitangent
fall back to `Zero3D` without tangent data; the normal is stored unmodified;
the color is the submesh's diffuse material color. -/
def initMeshVertex (hasTex hasTangents : Bool) (pColor : Vec3) (sv : SrcVertex) : Vertex :=
  { m_pos := ⟨sv.pos.x, -sv.pos.y, sv.pos.z⟩
    m_tex := if hasTex then ⟨sv.tex.x, sv.tex.y⟩ else ⟨0, 0⟩
    m_normal := ⟨sv.normal.x, sv.normal.y, sv.normal.z⟩
    m_color := pColor
    m_tangent := if hasTangents then sv.tangent else ⟨0, 0, 0⟩
    m_binormal := if hasTangents then sv.bitangent else ⟨0, 0, 0⟩ }

/-- The bounding-box update of `InitMesh`'s vertex loop: per-axis
`fmax(pPos->_, dim.max._)` and `fmin(pPos->_, dim.min._)` on the RAW source
position `pPos` (not the Y-flipped stored position). -/
def accumDim (d : Dimension) (pPos : Vec3) : Dimension :=
  { d with
    max := ⟨max pPos.x d.max.x, max pPos.y d.max.y, max pPos.z d.max.z⟩
    min := ⟨min pPos.x d.min.x, min pPos.y d.min.y, min pPos.z d.min.z⟩ }

/-- The bounding-box effect of one `InitMesh` call: accumulate min/max over the
submesh's raw positions, then `dim.size = dim.max - dim.min`. -/
def dimUpdate (d : Dimension) (m : SrcMesh) : Dimension :=
  let d1 := m.verts.foldl (fun dd sv => accumDim dd sv.pos) d
  { d1 with size := Vec3.sub d1.max d1.min }

/-- The face loop of `InitMesh`: a face is skipped (`continue`) unless
`Face.mNumIndices == 3`, in which case its three indices
(`mIndices[0], mIndices[1], mIndices[2]`, i.e. the whole length-3 list) are
pushed onto the entry's index list. -/
def facesToIndices (faces : List (List Nat)) : List Nat :=
  faces.foldl (fun ind f => if f.length = 3 then ind ++ f else ind) []

/-- The per-entry effect of `InitMesh` on `m_Entries[index]`: set
`MaterialIndex`, push the ingested vertices, push the accepted faces' indices.
(`push_back` appends to whatever the entry already holds.) -/
def entryUpdate (scene : SrcScene) (e : MeshEntry) (m : SrcMesh) : MeshEntry :=
  let pColor := scene.materials.getD m.materialIndex ⟨0, 0, 0⟩
  { e with
    MaterialIndex := m.materialIndex
    Vertices := e.Vertices ++ m.verts.map (initMeshVertex m.hasTexCoords m.hasTangents pColor)
    Indices := e.Indices ++ facesToIndices m.faces }

/-- The first (counters) loop of `InitFromScene`:
`m_Entries[i].vertexBase = numVertices; numVertices += mMeshes[i]->mNumVertices`.
Returns the list of `vertexBase` values, given the starting `numVertices`. -/
def vertexBases (start : Nat) : List SrcMesh → List Nat
  | [] => []
  | m :: ms => start :: vertexBases (start + m.verts.length) ms

/-- The final `numVertices` after the counters loop. -/
def countVertices (start : Nat) : List SrcMesh → Nat
  | [] => start
  | m :: ms => countVertices (start + m.verts.length) ms

/-- The second loop of `InitFromScene`: `InitMesh(i, mMeshes[i], pScene)` for
each entry, with the `vertexBase` assigned by the first loop. -/
def secondPass (scene : SrcScene) : List MeshEntry → List Nat → List SrcMesh → List MeshEntry
  | e :: es, b :: bs, m :: ms =>
      entryUpdate scene { e with vertexBase := b } m :: secondPass scene es bs ms
  | _, _, _ => []

/-- The bounding-box effect of the second loop of `InitFromScene`. -/
def scanDim (d : Dimension) : List SrcMesh → Dimension
  | [] => d
  | m :: ms => scanDim (dimUpdate d m) ms

/-- `VulkanMeshLoader::InitFromScene`: `m_Entries.resize(mNumMeshes)` (keep a
prefix of existing entries, pad with value-initialised ones), the sizes-only
counters loop establishing every `vertexBase`, then the content loop calling
`InitMesh` per entry.  The entry contents and the bounding box are updated by
disjoint pieces of `InitMesh` state, so they are threaded separately. -/
def initFromScene (st : LoaderState) (scene : SrcScene) : LoaderState :=
  let n := scene.meshes.length
  let resized := st.m_Entries.take n ++ List.replicate (n - st.m_Entries.length) defaultMeshEntry
  { m_Entries := secondPass scene resized (vertexBases st.numVertices scene.meshes) scene.meshes
    dim := scanDim st.dim scene.meshes
    numVertices := countVertices st.numVertices scene.meshes }

/-- The per-kind pushes of `createBuffers`' layout loop: a chain of
independent `if (layoutDetail == ...)` blocks.  Position is pushed scaled;
the normal's Y component is pushed negated; UV pushes two components; the
dummy kinds push one and four zeros.  A kind matching none of the eight tests
pushes nothing. -/
def pushAttr (scale : ℚ) (v : Vertex) (layoutDetail : Nat) : List ℚ :=
  (if layoutDetail = VERTEX_LAYOUT_POSITION then
    [v.m_pos.x * scale, v.m_pos.y * scale, v.m_pos.z * scale] else []) ++
  (if layoutDetail = VERTEX_LAYOUT_NORMAL then
    [v.m_normal.x, -v.m_normal.y, v.m_normal.z] else []) ++
  (if layoutDetail = VERTEX_LAYOUT_UV then
    [v.m_tex.x, v.m_tex.y] else []) ++
  (if layoutDetail = VERTEX_LAYOUT_COLOR then
    [v.m_color.x, v.m_color.y, v.m_color.z] else []) ++
  (if layoutDetail = VERTEX_LAYOUT_TANGENT then
    [v.m_tangent.x, v.m_tangent.y, v.m_tangent.z] else []) ++
  (if layoutDetail = VERTEX_LAYOUT_BITANGENT then
    [v.m_binormal.x, v.m_binormal.y, v.m_binormal.z] else []) ++
  (if layoutDetail = VERTEX_LAYOUT_DUMMY_FLOAT then
    [0] else []) ++
  (if layoutDetail = VERTEX_LAYOUT_DUMMY_VEC4 then
    [0, 0, 0, 0] else [])

/-- The vertex-packing triple loop of `createBuffers`: one flat `vertexBuffer`
accumulator, entries in order, each entry's vertices in order, the layout's
kinds in order. -/
def packedVertexStream (scale : ℚ) (layout : List Nat) (entries : List MeshEntry) : List ℚ :=
  entries.foldl
    (fun buf e =>
      e.Vertices.foldl
        (fun buf v => layout.foldl (fun buf k => buf ++ pushAttr scale v k) buf)
        buf)
    []

/-- The index-merging loop of `createBuffers`:
`indexBase = indexBuffer.size()` is captured per entry, then every local index
of the entry is pushed as `index + indexBase`.  Note the offset is the
cumulative INDEX count of prior entries, not the entry's `vertexBase`. -/
def mergedIndexStream (entries : List MeshEntry) : List Nat :=
  entries.foldl (fun ib e => ib ++ e.Indices.map (fun ix => ix + ib.length)) []

/-- The data `createBuffers` hands to the GPU collaborator: the packed streams,
their byte sizes (`size() * sizeof(float)` / `size() * sizeof(uint32_t)`), and
`meshBuffer->indexCount = indexBuffer.size()`. -/
structure CreateBuffersResult where
  vertexStream : List ℚ
  indexStream : List Nat
  verticesByteSize : Nat
  indicesByteSize : Nat
  indexCount : Nat
deriving DecidableEq

/-- `VulkanMeshLoader::createBuffers`: pack the vertex stream, rescale the
stored bounding box in place (`dim.min *= scale` etc.), merge the index
stream, and upload.  `m_Entries` and `numVertices` are not touched.  The
`useStaging` flag only selects which external GPU path receives the packed
data, which is identical in both. -/
def createBuffers (st : LoaderState) (layout : List Nat) (scale : ℚ) (_useStaging : Bool) :
    LoaderState × CreateBuffersResult :=
  let vb := packedVertexStream scale layout st.m_Entries
  let ib := mergedIndexStream st.m_Entries
  ({ st with dim := { min := st.dim.min.scaled scale
                      max := st.dim.max.scaled scale
                      size := st.dim.size.scaled scale } },
   { vertexStream := vb
     indexStream := ib
     verticesByteSize := vb.length * 4
     indicesByteSize := ib.length * 4
     indexCount := ib.length })

/-- `VulkanMeshLoader::createVulkanBuffers`: forwards to `createBuffers` with
`useStaging = false` and null transfer handles. -/
def createVulkanBuffers (st : LoaderState) (layout : List Nat) (scale : ℚ) :
    LoaderState × CreateBuffersResult :=
  createBuffers st layout scale false

/-- Total vertex count of a mesh (the `N` of the spec's packing property). -/
def totalVertices (entries : List MeshEntry) : Nat :=
  (entries.map fun e => e.Vertices.length).sum

/-! Concrete data used by the evaluation theorems. -/

/-- A source vertex whose attributes are all zero. -/
def zeroSrcVertex : SrcVertex :=
  { pos := ⟨0, 0, 0⟩, normal := ⟨0, 0, 0⟩, tex := ⟨0, 0⟩,
    tangent := ⟨0, 0, 0⟩, bitangent := ⟨0, 0, 0⟩ }

/-- A scene with two submeshes: 4 vertices with one triangle, then 3 vertices
with one triangle.  Entry 1's `vertexBase` is 4, but only 3 indices precede it
in the merged stream. -/
def sceneC1 : SrcScene :=
  { meshes :=
      [ { materialIndex := 0, hasTexCoords := false, hasTangents := false,
          verts := List.replicate 4 zeroSrcVertex, faces := [[0, 1, 2]] },
        { materialIndex := 0, hasTexCoords := false, hasTangents := false,
          verts := List.replicate 3 zeroSrcVertex, faces := [[0, 1, 2]] } ],
    materials := [⟨0, 0, 0⟩] }

/-- A loader holding a single entry with a single vertex. -/
def stC5 : LoaderState :=
  { m_Entries := [{ MaterialIndex := 0, vertexBase := 0,
                    Vertices := [defaultVertex], Indices := [] }],
    dim := initialDim, numVertices := 1 }

/-- An ingested vertex with stored position `(1, -2, 3)` (source `(1, 2, 3)`). -/
def vC4 : Vertex :=
  { m_pos := ⟨1, -2, 3⟩, m_tex := ⟨0, 0⟩, m_normal := ⟨0, 0, 0⟩,
    m_color := ⟨0, 0, 0⟩, m_tangent := ⟨0, 0, 0⟩, m_binormal := ⟨0, 0, 0⟩ }

/-- A loader holding a single entry with the single vertex `vC4`. -/
def stC4 : LoaderState :=
  { m_Entries := [{ MaterialIndex := 0, vertexBase := 0,
                    Vertices := [vC4], Indices := [] }],
    dim := initialDim, numVertices := 1 }

/-- A scene with submesh vertex counts `[2, 1]`. -/
def sceneC6 : SrcScene :=
  { meshes :=
      [ { materialIndex := 0, hasTexCoords := false, hasTangents := false,
          verts := List.replicate 2 zeroSrcVertex, faces := [] },
        { materialIndex := 0, hasTexCoords := false, hasTangents := false,
          verts := [zeroSrcVertex], faces := [] } ],
    materials := [] }

/-- A scene with one submesh holding the two source positions `(1,2,3)` and
`(-1,5,0)` of the bounding-box test. -/
def sceneC7 : SrcScene :=
  { meshes :=
      [ { materialIndex := 0, hasTexCoords := false, hasTangents := false,
          verts := [ { zeroSrcVertex with pos := ⟨1, 2, 3⟩ },
                     { zeroSrcVertex with pos := ⟨-1, 5, 0⟩ } ],
          faces := [] } ],
    materials := [] }

/-- Claim C1: the claim states the merged index stream offsets each entry's
indices by that entry's `vertexBase` (cumulative vertex count).  The code
instead offsets by `indexBuffer.size()`, the cumulative INDEX count.  On
`sceneC1`, entry 1 has `vertexBase = 4` and local indices `[0,1,2]`, yet the
merged stream is `[0,1,2,3,4,5]` — entry 1's values are offset by 3 (the prior
index count), not by 4 as the claim requires (`[0,1,2,4,5,6]`).  The
`vertexBase` field is computed by `InitFromScene` and never read by
`createBuffers`. -/
theorem c1_indexOffset_code_eval :
    mergedIndexStream (initFromScene initialState sceneC1).m_Entries = [0, 1, 2, 3, 4, 5] ∧
    ((initFromScene initialState sceneC1).m_Entries[1]?).map MeshEntry.vertexBase = some 4 ∧
    ((initFromScene initialState sceneC1).m_Entries[1]?).map MeshEntry.Indices = some [0, 1, 2] ∧
    ([0, 1, 2, 3, 4, 5] : List Nat) ≠ [0, 1, 2, 0 + 4, 1 + 4, 2 + 4] := by
  decide

/-- Claim C2: the claim states `vertexSize` gives pad-vec4 (`DUMMY_VEC4`) 4
components and pad-scalar (`DUMMY_FLOAT`) 1 component.  The code's switch only
special-cases UV; every other kind — the dummies included — falls to the
default `3 * sizeof(float)`.  So `vertexSize [DUMMY_VEC4] = 12`, not the
claimed `4 × 4 = 16`, even though the packer emits 4 floats for that kind:
the computed stride contradicts the code's own packing. -/
theorem c2_vertexSize_code_eval :
    vertexSize [VERTEX_LAYOUT_DUMMY_VEC4] = 12 ∧
    (pushAttr 1 defaultVertex VERTEX_LAYOUT_DUMMY_VEC4).length = 4 ∧
    (12 : Nat) ≠ 4 * 4 ∧
    vertexSize [VERTEX_LAYOUT_DUMMY_FLOAT] = 12 ∧
    (pushAttr 1 defaultVertex VERTEX_LAYOUT_DUMMY_FLOAT).length = 1 := by
  decide

/-- Claim C3: the scanning half of the claim is what the code does (first
qualifying index from 0 upward: with memory types whose flags are `[2, 3]`,
`typeBits = 3` and requested properties `1`, index 0 fails the flag test and
index 1 is returned).  But when NO index qualifies (here `typeBits = 0`, so no
candidate even enters the flag test) the code does not abort: it falls through
`// todo : throw error` and returns the default index value 0, exactly what
the claim says it must not do. -/
theorem c3_getMemoryType_code_eval :
    getMemoryType [2, 3] 3 1 = 1 ∧
    getMemoryType [] 0 1 = 0 := by
  decide

/-- Claim C5: the claim states the packed stream holds `N × stride/4` floats
with the stride from `vertexSize`.  For the layout `[DUMMY_FLOAT]` and a mesh
with `N = 1` vertex, the packer emits exactly 1 float, but `vertexSize` gives
stride 12, so `N × stride/4 = 3 ≠ 1`: the equality fails because `vertexSize`
charges 3 floats for a pad kind the packer fills with 1. -/
theorem c5_packedLength_code_eval :
    ((createBuffers stC5 [VERTEX_LAYOUT_DUMMY_FLOAT] 1 false).2.vertexStream).length = 1 ∧
    totalVertices stC5.m_Entries = 1 ∧
    vertexSize [VERTEX_LAYOUT_DUMMY_FLOAT] = 12 ∧
    (1 : Nat) ≠ 1 * (12 / 4) := by
  decide

/-! General lemmas about the accumulation loops. -/

/-- A `push_back` loop appending `f a` for each element is the flattening of
the mapped list, prefixed by the starting accumulator. -/
theorem foldl_append_eq {α β : Type} (f : α → List β) (l : List α) :
    ∀ b : List β, l.foldl (fun buf a => buf ++ f a) b = b ++ (l.map f).flatten := by
  induction l with
  | nil => intro b; simp
  | cons a l ih => intro b; simp [ih, List.append_assoc]

/-- The packing triple loop, written as nested flattenings. -/
theorem packedVertexStream_eq (scale : ℚ) (layout : List Nat) (entries : List MeshEntry) :
    packedVertexStream scale layout entries
      = (entries.map fun e =>
          (e.Vertices.map fun v => (layout.map (pushAttr scale v)).flatten).flatten).flatten := by
  unfold packedVertexStream
  simp only [foldl_append_eq, List.nil_append]

/-- A layout kind outside the eight declared enumerators matches none of the
`if (layoutDetail == ...)` tests, so the layout loop pushes nothing for it. -/
theorem pushAttr_unknown (scale : ℚ) (v : Vertex) (k : Nat) (hk : k ∉ supportedKinds) :
    pushAttr scale v k = [] := by
  simp [supportedKinds, VERTEX_LAYOUT_POSITION, VERTEX_LAYOUT_NORMAL, VERTEX_LAYOUT_COLOR,
    VERTEX_LAYOUT_UV, VERTEX_LAYOUT_TANGENT, VERTEX_LAYOUT_BITANGENT,
    VERTEX_LAYOUT_DUMMY_FLOAT, VERTEX_LAYOUT_DUMMY_VEC4] at hk
  obtain ⟨h0, h1, h2, h3, h4, h5, h6, h7⟩ := hk
  simp [pushAttr, VERTEX_LAYOUT_POSITION, VERTEX_LAYOUT_NORMAL, VERTEX_LAYOUT_COLOR,
    VERTEX_LAYOUT_UV, VERTEX_LAYOUT_TANGENT, VERTEX_LAYOUT_BITANGENT,
    VERTEX_LAYOUT_DUMMY_FLOAT, VERTEX_LAYOUT_DUMMY_VEC4, h0, h1, h2, h3, h4, h5, h6, h7]

/-- Claim C4 (counterexample evidence): the claim says packing fails fast on a
layout holding the out-of-range kind `8`, with no partial buffer created.  On
the code, kind `8` contributes nothing, packing continues with the position
attribute that follows it, and a buffer of 12 bytes is produced — the unknown
kind is silently skipped, not a fatal error. -/
theorem c4_failFast_cex :
    pushAttr 1 vC4 8 = [] ∧
    (createBuffers stC4 [8, VERTEX_LAYOUT_POSITION] 1 false).2.vertexStream = [1, -2, 3] ∧
    (createBuffers stC4 [8, VERTEX_LAYOUT_POSITION] 1 false).2.verticesByteSize = 12 := by
  refine ⟨rfl, ?_, ?_⟩ <;>
    norm_num [createBuffers, packedVertexStream, pushAttr, stC4, vC4,
      VERTEX_LAYOUT_POSITION, VERTEX_LAYOUT_NORMAL, VERTEX_LAYOUT_COLOR, VERTEX_LAYOUT_UV,
      VERTEX_LAYOUT_TANGENT, VERTEX_LAYOUT_BITANGENT, VERTEX_LAYOUT_DUMMY_FLOAT,
      VERTEX_LAYOUT_DUMMY_VEC4]

/-- Claim C4 (amended): a layout entry outside the supported set
`{position, normal, color, uv, tangent, bitangent, pad-scalar, pad-vec4}` is
silently skipped — it contributes no floats, and `createBuffers` proceeds
exactly as it would for the same layout with the unknown kind removed (the
same packed streams, sizes, and bounding-box rescale; no abort occurs). -/
theorem c4_unknownKindSkipped (k : Nat) (hk : k ∉ supportedKinds) (scale : ℚ)
    (st : LoaderState) (l1 l2 : List Nat) (u : Bool) :
    createBuffers st (l1 ++ k :: l2) scale u = createBuffers st (l1 ++ l2) scale u := by
  have hp : ∀ v : Vertex, pushAttr scale v k = [] := fun v => pushAttr_unknown scale v k hk
  simp [createBuffers, packedVertexStream_eq, hp]

/-- Witness for `c4_unknownKindSkipped` at kind `8`, layout `[position, 8]`. -/
theorem c4_unknownKindSkipped_witness :
    (8 ∉ supportedKinds) ∧
    createBuffers stC4 ([VERTEX_LAYOUT_POSITION] ++ 8 :: []) 1 false
      = createBuffers stC4 ([VERTEX_LAYOUT_POSITION] ++ []) 1 false :=
  ⟨by decide, c4_unknownKindSkipped 8 (by decide) 1 stC4 [VERTEX_LAYOUT_POSITION] [] false⟩

/-- `InitMesh` never touches the entry's `vertexBase`. -/
theorem entryUpdate_vertexBase (scene : SrcScene) (e : MeshEntry) (m : SrcMesh) :
    (entryUpdate scene e m).vertexBase = e.vertexBase := rfl

/-- The `vertexBase` assigned by the counters loop and preserved by the content
loop is the running total of prior submesh vertex counts, for any starting
`numVertices`. -/
theorem secondPass_vertexBase (scene : SrcScene) :
    ∀ (meshes : List SrcMesh) (start : Nat) (es : List MeshEntry),
      es.length = meshes.length → ∀ i, i < meshes.length →
      ((secondPass scene es (vertexBases start meshes) meshes)[i]?).map MeshEntry.vertexBase
        = some (start + ((meshes.take i).map fun m => m.verts.length).sum) := by
  intro meshes
  induction meshes with
  | nil => intro start es _ i hi; exact absurd hi (Nat.not_lt_zero i)
  | cons m ms ih =>
    intro start es h i hi
    cases es with
    | nil => simp at h
    | cons e es =>
      cases i with
      | zero => simp [secondPass, vertexBases, entryUpdate]
      | succ j =>
        have h' : es.length = ms.length := by simpa using h
        have hj : j < ms.length := Nat.lt_of_succ_lt_succ hi
        have hrec := ih (start + m.verts.length) es h' j hj
        simp only [secondPass, vertexBases, List.getElem?_cons_succ, hrec,
          List.take_succ_cons, List.map_cons, List.sum_cons, Nat.add_assoc]

/-- Claim C6: after ingesting any scene into a fresh loader, entry `i`'s
`vertexBase` equals the sum of the vertex counts of submeshes `0..i-1`; the
value is fixed by the sizes-only counters loop (`vertexBases`), which runs
before the content loop appends any vertex, and the content loop preserves it. -/
theorem c6_vertexBase (scene : SrcScene) (i : Nat) (hi : i < scene.meshes.length) :
    (((initFromScene initialState scene).m_Entries)[i]?).map MeshEntry.vertexBase
      = some (((scene.meshes.take i).map fun m => m.verts.length).sum) := by
  have hlen : (List.replicate scene.meshes.length defaultMeshEntry).length
      = scene.meshes.length := by simp
  have h := secondPass_vertexBase scene scene.meshes 0 _ hlen i hi
  simpa [initFromScene, initialState] using h

/-- Witness for `c6_vertexBase`: on the scene with submesh sizes `[2, 1]`,
entry 1's `vertexBase` is `2`. -/
theorem c6_vertexBase_witness :
    1 < sceneC6.meshes.length ∧
    (((initFromScene initialState sceneC6).m_Entries)[1]?).map MeshEntry.vertexBase
      = some 2 := by
  refine ⟨by decide, ?_⟩
  have h := c6_vertexBase sceneC6 1 (by decide)
  simpa [sceneC6] using h

/-- Claim C7: ingesting the positions `{(1,2,3), (-1,5,0)}` accumulates the
bounding box by per-axis min/max over the raw source positions (note
`min.y = 2 > 0`: the stored positions have Y negated, the box does not), with
`size = max - min`, giving `min=(-1,2,0)`, `max=(1,5,3)`, `size=(2,3,3)`; and
`createBuffers` with `scale = 2` then multiplies `min`, `max` and `size` by
the scale, giving `min=(-2,4,0)`, `max=(2,10,6)`, `size=(4,6,6)`. -/
theorem c7_boundingBox :
    (initFromScene initialState sceneC7).dim
        = { min := ⟨-1, 2, 0⟩, max := ⟨1, 5, 3⟩, size := ⟨2, 3, 3⟩ } ∧
    (createBuffers (initFromScene initialState sceneC7) [VERTEX_LAYOUT_POSITION] 2 false).1.dim
        = { min := ⟨-2, 4, 0⟩, max := ⟨2, 10, 6⟩, size := ⟨4, 6, 6⟩ } := by
  have h1 : (initFromScene initialState sceneC7).dim
      = { min := ⟨-1, 2, 0⟩, max := ⟨1, 5, 3⟩, size := ⟨2, 3, 3⟩ } := by
    norm_num [initFromScene, initialState, initialDim, scanDim, dimUpdate, accumDim,
      sceneC7, zeroSrcVertex, fltMax, Vec3.sub, min_def, max_def]
  refine ⟨h1, ?_⟩
  norm_num [createBuffers, Vec3.scaled, h1]

/-- Claim C8: for every source vertex, the stored position has its Y component
negated at ingestion while the stored normal is unmodified; at packing time the
position is emitted as stored (times scale, so its Y is `-sourceY × scale`)
and the normal is emitted with its Y component negated (`-storedNormalY`) —
two independent flips at different stages. -/
theorem c8_axisFlips (sv : SrcVertex) (hasTex hasTangents : Bool) (pColor : Vec3) (scale : ℚ) :
    (initMeshVertex hasTex hasTangents pColor sv).m_pos.y = -sv.pos.y ∧
    (initMeshVertex hasTex hasTangents pColor sv).m_normal = sv.normal ∧
    pushAttr scale (initMeshVertex hasTex hasTangents pColor sv) VERTEX_LAYOUT_POSITION
      = [sv.pos.x * scale, -sv.pos.y * scale, sv.pos.z * scale] ∧
    pushAttr scale (initMeshVertex hasTex hasTangents pColor sv) VERTEX_LAYOUT_NORMAL
      = [sv.normal.x, -sv.normal.y, sv.normal.z] :=
  ⟨rfl, rfl, rfl, rfl⟩

/-- Claim C9: a face contributes to the entry's index list exactly when it has
3 indices: the produced list is the flattening of the length-3 faces, in
order — faces of any other arity contribute nothing (silently, with no
partial contribution), so every produced index originates from a triangle. -/
theorem c9_triangleFacesOnly (faces : List (List Nat)) :
    facesToIndices faces = ((faces.filter fun f => f.length = 3).flatten) := by
  suffices h : ∀ acc : List Nat,
      faces.foldl (fun ind f => if f.length = 3 then ind ++ f else ind) acc
        = acc ++ ((faces.filter fun f => f.length = 3).flatten) by
    simpa [facesToIndices] using h []
  induction faces with
  | nil => intro acc; simp
  | cons f fs ih =>
    intro acc
    by_cases h3 : f.length = 3 <;>
      simp [List.filter_cons, h3, ih, List.append_assoc]

/-- Claim C10: `createBuffers` (and `createVulkanBuffers`, which forwards to
it) rescales the stored `dim.min`, `dim.max`, `dim.size` in place and leaves
`m_Entries` and `numVertices` untouched; two successive calls with scales `s1`
then `s2` leave the bounding box at the original values times `s1 * s2` — the
rescale compounds rather than being recomputed from unscaled positions. -/
theorem c10_scaleCompounds (st : LoaderState) (l1 l2 : List Nat) (s1 s2 : ℚ) (u1 u2 : Bool) :
    ((createBuffers (createBuffers st l1 s1 u1).1 l2 s2 u2).1).m_Entries = st.m_Entries ∧
    ((createBuffers (createBuffers st l1 s1 u1).1 l2 s2 u2).1).numVertices = st.numVertices ∧
    ((createBuffers (createBuffers st l1 s1 u1).1 l2 s2 u2).1).dim =
      { min := st.dim.min.scaled (s1 * s2), max := st.dim.max.scaled (s1 * s2),
        size := st.dim.size.scaled (s1 * s2) } ∧
    createVulkanBuffers st l1 s1 = createBuffers st l1 s1 false := by
  refine ⟨rfl, rfl, ?_, rfl⟩
  simp [createBuffers, Vec3.scaled, mul_assoc]
